import Mathlib

/-!
Verification development for the ipybox server repository.

The definitions below are a shallow embedding of `src/ipybox/mcp_proxy.py`
and `src/ipybox/server.py`: Python dicts become association lists, JSON
values become the inductive `Json`, timestamps become naturals, and the
environment nondeterminism (subprocess spawn success, runtime kill success,
messages arriving on the stdout queue) becomes explicit parameters.
-/

/-- JSON values, as produced by Python json decoding.  Objects keep field
order (Python dicts preserve insertion order); numbers are restricted to the
integers that appear in the modelled code paths (request ids). -/
inductive Json where
  | null : Json
  | bool (b : Bool) : Json
  | num (n : Int) : Json
  | str (s : String) : Json
  | arr (elems : List Json) : Json
  | obj (fields : List (String × Json)) : Json
deriving Repr

mutual

/-- Structural equality of JSON values (Python equality on decoded values,
restricted to the id types str and int that the proxy compares). -/
def Json.beq : Json → Json → Bool
  | .null, .null => true
  | .bool a, .bool b => a == b
  | .num a, .num b => a == b
  | .str a, .str b => a == b
  | .arr a, .arr b => Json.beqList a b
  | .obj a, .obj b => Json.beqFields a b
  | _, _ => false

def Json.beqList : List Json → List Json → Bool
  | [], [] => true
  | a :: as, b :: bs => Json.beq a b && Json.beqList as bs
  | _, _ => false

def Json.beqFields : List (String × Json) → List (String × Json) → Bool
  | [], [] => true
  | (k, v) :: as, (l, w) :: bs => k == l && Json.beq v w && Json.beqFields as bs
  | _, _ => false

end

instance : BEq Json := ⟨Json.beq⟩

mutual

theorem Json.beq_iff_eq : ∀ a b : Json, Json.beq a b = true ↔ a = b
  | .null, .null => by simp [Json.beq]
  | .null, .bool _ | .null, .num _ | .null, .str _ | .null, .arr _ | .null, .obj _ => by
      simp [Json.beq]
  | .bool _, .null | .bool _, .num _ | .bool _, .str _ | .bool _, .arr _ | .bool _, .obj _ => by
      simp [Json.beq]
  | .num _, .null | .num _, .bool _ | .num _, .str _ | .num _, .arr _ | .num _, .obj _ => by
      simp [Json.beq]
  | .str _, .null | .str _, .bool _ | .str _, .num _ | .str _, .arr _ | .str _, .obj _ => by
      simp [Json.beq]
  | .arr _, .null | .arr _, .bool _ | .arr _, .num _ | .arr _, .str _ | .arr _, .obj _ => by
      simp [Json.beq]
  | .obj _, .null | .obj _, .bool _ | .obj _, .num _ | .obj _, .str _ | .obj _, .arr _ => by
      simp [Json.beq]
  | .bool a, .bool b => by simp [Json.beq]
  | .num a, .num b => by simp [Json.beq]
  | .str a, .str b => by simp [Json.beq]
  | .arr a, .arr b => by
      simp only [Json.beq, Json.arr.injEq]
      exact Json.beqList_iff_eq a b
  | .obj a, .obj b => by
      simp only [Json.beq, Json.obj.injEq]
      exact Json.beqFields_iff_eq a b

theorem Json.beqList_iff_eq : ∀ a b : List Json, Json.beqList a b = true ↔ a = b
  | [], [] => by simp [Json.beqList]
  | [], _ :: _ => by simp [Json.beqList]
  | _ :: _, [] => by simp [Json.beqList]
  | a :: as, b :: bs => by
      simp only [Json.beqList, Bool.and_eq_true, List.cons.injEq]
      exact and_congr (Json.beq_iff_eq a b) (Json.beqList_iff_eq as bs)

theorem Json.beqFields_iff_eq :
    ∀ a b : List (String × Json), Json.beqFields a b = true ↔ a = b
  | [], [] => by simp [Json.beqFields]
  | [], _ :: _ => by simp [Json.beqFields]
  | _ :: _, [] => by simp [Json.beqFields]
  | (k, v) :: as, (l, w) :: bs => by
      simp only [Json.beqFields, Bool.and_eq_true, List.cons.injEq, Prod.mk.injEq,
        Json.beq_iff_eq v w, Json.beqFields_iff_eq as bs]
      constructor
      · rintro ⟨⟨hk, hv⟩, hrest⟩
        exact ⟨⟨eq_of_beq hk, hv⟩, hrest⟩
      · rintro ⟨⟨hk, hv⟩, hrest⟩
        exact ⟨⟨by simp [hk], hv⟩, hrest⟩

end

instance : DecidableEq Json := fun a b =>
  decidable_of_iff (Json.beq a b = true) (Json.beq_iff_eq a b)

/-- Field lookup on a JSON object: the value stored under key `k`, `none`
when the value is not an object or the key is absent.  Mirrors Python
`d[k]` preceded by a `k in d` membership test. -/
def Json.objGet (j : Json) (k : String) : Option Json :=
  match j with
  | .obj fields => fields.lookup k
  | _ => none

/-- Python `d.get(k)` collapses an absent key and an explicit null to `None`;
this returns `none` exactly in those two cases.  Only meaningful on objects
(on a Python list `.get` raises, which `handle_mcp_request` models
separately). -/
def Json.pyGet (j : Json) (k : String) : Option Json :=
  match j.objGet k with
  | some .null => none
  | some v => some v
  | none => none

/-- Whether `j` is a JSON object (a Python dict after decoding). -/
def Json.isObj : Json → Bool
  | .obj _ => true
  | _ => false

/-- Whether `j` is a JSON array (a Python list after decoding). -/
def Json.isArr : Json → Bool
  | .arr _ => true
  | _ => false

/-! ## MCP proxy request handling (`src/ipybox/mcp_proxy.py`)

`MCPProxy.handle_mcp_request` is an async generator.  Its environment is
made explicit: whether `get_or_create_session` succeeded, whether
`MCPSession.send_message` succeeded, and the sequence of outcomes of the
successive `session.receive_message(timeout=30.0)` calls. -/

/-- Outcome of resolving the session in `handle_mcp_request` (the
`get_or_create_session` call): success, or an exception with message `msg`
(caught at the except clause around lines 404 to 422). -/
inductive SessionResolve where
  | ok : SessionResolve
  | failed (msg : String) : SessionResolve
deriving DecidableEq, Repr

/-- Outcome of `session.send_message(request_data)`: success, or an
exception with message `msg` (for example RuntimeError when the session is
not in state active). -/
inductive SendOutcome where
  | ok : SendOutcome
  | failed (msg : String) : SendOutcome
deriving DecidableEq, Repr

/-- Outcome of one `session.receive_message(timeout=30.0)` call inside the
correlation loop: a decoded message, an asyncio.TimeoutError after 30
seconds, or another exception (for example json.JSONDecodeError) with
message `msg`. -/
inductive RecvEvent where
  | msg (m : Json) : RecvEvent
  | timeout : RecvEvent
  | exn (msg : String) : RecvEvent
deriving DecidableEq, Repr

/-- How a run of the `handle_mcp_request` generator ends: terminating
normally after yielding `fs`, raising an uncaught exception after yielding
`fs`, or suspended forever (the receive queue never delivers another
outcome) after yielding `fs`. -/
inductive HandleOutcome where
  | frames (fs : List Json) : HandleOutcome
  | raises (fs : List Json) : HandleOutcome
  | blocked (fs : List Json) : HandleOutcome
deriving DecidableEq, Repr

/-- Prepend one yielded frame to a generator outcome. -/
def HandleOutcome.push (m : Json) : HandleOutcome → HandleOutcome
  | .frames fs => .frames (m :: fs)
  | .raises fs => .raises (m :: fs)
  | .blocked fs => .blocked (m :: fs)

/-- The synthetic timeout frame built at lines 455 to 462 of mcp_proxy.py. -/
def timeoutErrorFrame (idv : Json) : Json :=
  .obj [("jsonrpc", .str "2.0"),
        ("error", .obj [("code", .num (-32603)),
                        ("message", .str "Timeout waiting for response from MCP server")]),
        ("id", idv)]

/-- The synthetic internal-error frame built at lines 413 to 420 and 467 to
474 of mcp_proxy.py; `msg` is the str of the caught exception. -/
def internalErrorFrame (msg : String) (idv : Json) : Json :=
  .obj [("jsonrpc", .str "2.0"),
        ("error", .obj [("code", .num (-32603)),
                        ("message", .str ("Internal error: " ++ msg))]),
        ("id", idv)]

/-- The test at line 450 of mcp_proxy.py: key id present in the response
dict, and its value equal to request_id. -/
def idMatches (response : Json) (rid : Json) : Bool :=
  match response.objGet "id" with
  | some v => v == rid
  | none => false

/-- The correlation loop of `handle_mcp_request` (lines 442 to 464), entered
only when the incoming request is a dict whose id `rid` is non-null.  Each
list element is the outcome of one `receive_message(timeout=30.0)` call;
an exhausted list means the next receive suspends forever. -/
def correlate (rid : Json) : List RecvEvent → HandleOutcome
  | [] => .blocked []
  | .msg m :: rest =>
      if idMatches m rid then .frames [m]
      else (correlate rid rest).push m
  | .timeout :: _ => .frames [timeoutErrorFrame rid]
  | .exn msg :: _ => .frames [internalErrorFrame msg rid]

/-- Shallow embedding of `MCPProxy.handle_mcp_request` (mcp_proxy.py lines
388 to 475).  `request` is the decoded request body handed to the generator.
On a Python list (a JSON-RPC batch) every `request_data.get(...)` call
raises AttributeError; the one at line 473, inside the outer except clause,
escapes the generator, so for a list the generator raises after yielding
nothing. -/
def handle_mcp_request (request : Json) (resolve : SessionResolve)
    (send : SendOutcome) (events : List RecvEvent) : HandleOutcome :=
  match resolve with
  | .failed msg =>
      -- lines 412 to 422: build the error response; request_data.get("id")
      -- raises AttributeError when request_data is not a dict
      match request with
      | .obj _ => .frames [internalErrorFrame msg ((request.objGet "id").getD .null)]
      | _ => .raises []
  | .ok =>
      match send with
      | .failed msg =>
          -- send_message raised: caught at line 465; the frame at lines 467
          -- to 474 again needs request_data.get("id")
          match request with
          | .obj _ => .frames [internalErrorFrame msg ((request.objGet "id").getD .null)]
          | _ => .raises []
      | .ok =>
          match request with
          | .obj _ =>
              -- line 435: request_id = request_data.get("id")
              match request.pyGet "id" with
              | none => .frames []   -- notification: return at line 440
              | some rid => correlate rid events
          | _ =>
              -- line 429: request_data.get("method") raises AttributeError,
              -- caught at line 465; line 473 raises AttributeError again,
              -- which escapes the generator
              .raises []

/-- The last element of a list of frames, `none` on an empty list. -/
def lastFrame : List Json → Option Json
  | [] => none
  | [f] => some f
  | _ :: f :: rest => lastFrame (f :: rest)

theorem lastFrame_cons_cons (m f : Json) (rest : List Json) :
    lastFrame (m :: f :: rest) = lastFrame (f :: rest) := rfl

theorem timeoutErrorFrame_objGet_id (idv : Json) :
    (timeoutErrorFrame idv).objGet "id" = some idv := rfl

theorem internalErrorFrame_objGet_id (msg : String) (idv : Json) :
    (internalErrorFrame msg idv).objGet "id" = some idv := rfl

/-- Every normal termination of the correlation loop ends with a frame
whose id field holds the incoming request id. -/
theorem correlate_frames_last (rid : Json) :
    ∀ (events : List RecvEvent) (fs : List Json),
      correlate rid events = .frames fs →
      ∃ f, lastFrame fs = some f ∧ f.objGet "id" = some rid
  | [], fs => by simp [correlate]
  | .msg m :: rest, fs => by
      simp only [correlate]
      by_cases hm : idMatches m rid = true
      · simp only [hm, if_true]
        intro h
        obtain rfl : [m] = fs := by injection h
        refine ⟨m, rfl, ?_⟩
        unfold idMatches at hm
        revert hm
        match m.objGet "id" with
        | none => intro hm; exact absurd hm (by simp)
        | some v =>
            intro hm
            have hv : v = rid := (Json.beq_iff_eq v rid).mp hm
            rw [hv]
      · simp only [hm, if_false]
        intro h
        match hrec : correlate rid rest with
        | .frames gs =>
            rw [hrec] at h
            obtain rfl : m :: gs = fs := by injection h
            obtain ⟨f, hlast, hid⟩ := correlate_frames_last rid rest gs hrec
            refine ⟨f, ?_, hid⟩
            match gs, hlast with
            | g :: gs, hlast => exact hlast
        | .raises gs => rw [hrec] at h; exact absurd h (by simp [HandleOutcome.push])
        | .blocked gs => rw [hrec] at h; exact absurd h (by simp [HandleOutcome.push])
  | .timeout :: rest, fs => by
      simp only [correlate]
      intro h
      obtain rfl : [timeoutErrorFrame rid] = fs := by injection h
      exact ⟨timeoutErrorFrame rid, rfl, timeoutErrorFrame_objGet_id rid⟩
  | .exn msg :: rest, fs => by
      simp only [correlate]
      intro h
      obtain rfl : [internalErrorFrame msg rid] = fs := by injection h
      exact ⟨internalErrorFrame msg rid, rfl, internalErrorFrame_objGet_id msg rid⟩

/-- When no received message carries the matching id and the receive then
times out, the loop yields every received frame followed by the synthetic
timeout frame, and terminates. -/
theorem correlate_timeout_tail (rid : Json) :
    ∀ msgs : List Json, (∀ m ∈ msgs, idMatches m rid = false) →
      correlate rid (msgs.map RecvEvent.msg ++ [RecvEvent.timeout])
        = .frames (msgs ++ [timeoutErrorFrame rid])
  | [], _ => by simp [correlate]
  | m :: msgs, h => by
      have hm : idMatches m rid = false := h m (List.mem_cons_self m msgs)
      have ih := correlate_timeout_tail rid msgs (fun x hx => h x (List.mem_cons_of_mem m hx))
      simp only [List.map_cons, List.cons_append, correlate, hm, Bool.false_eq_true, if_false]
      rw [show (List.map RecvEvent.msg msgs).append [RecvEvent.timeout]
            = List.map RecvEvent.msg msgs ++ [RecvEvent.timeout] from rfl]
      rw [ih]
      rfl

/-- C2: for every `handle_mcp_request` call over a request whose id R is
non-null, on a session that is resolved and to which the frame is sent, the
last frame yielded before normal termination carries id R; in particular,
when a 30-second receive timeout fires before any matching frame arrived,
the synthetic timeout error frame with id R is yielded last and the
generator stops. -/
theorem handle_last_frame_id_C2 (request rid : Json) (events : List RecvEvent)
    (hid : request.pyGet "id" = some rid) :
    (∀ fs, handle_mcp_request request .ok .ok events = .frames fs →
        ∃ f, lastFrame fs = some f ∧ f.objGet "id" = some rid)
    ∧ (∀ msgs : List Json, (∀ m ∈ msgs, idMatches m rid = false) →
        handle_mcp_request request .ok .ok (msgs.map RecvEvent.msg ++ [RecvEvent.timeout])
          = .frames (msgs ++ [timeoutErrorFrame rid])) := by
  match request with
  | .null | .bool _ | .num _ | .str _ | .arr _ =>
      exact absurd hid (by simp [Json.pyGet, Json.objGet])
  | .obj fields =>
      constructor
      · intro fs h
        simp only [handle_mcp_request, hid] at h
        exact correlate_frames_last rid events fs h
      · intro msgs hmsgs
        simp only [handle_mcp_request, hid]
        exact correlate_timeout_tail rid msgs hmsgs

theorem handle_last_frame_id_C2_witness :
    (Json.obj [("jsonrpc", .str "2.0"), ("method", .str "ping"),
               ("id", .num 1)]).pyGet "id" = some (.num 1)
    ∧ handle_mcp_request
        (Json.obj [("jsonrpc", .str "2.0"), ("method", .str "ping"), ("id", .num 1)])
        .ok .ok [RecvEvent.timeout]
        = .frames [timeoutErrorFrame (.num 1)] := by
  refine ⟨rfl, ?_⟩
  have h := (handle_last_frame_id_C2
    (Json.obj [("jsonrpc", .str "2.0"), ("method", .str "ping"), ("id", .num 1)])
    (.num 1) [] rfl).2 [] (by simp)
  simpa using h

/-- C3: for every `handle_mcp_request` call with a single request whose id
is null or absent (a notification), once the session is resolved and the
frame is sent successfully, the generator yields zero frames and stops. -/
theorem handle_notification_C3 (request : Json) (events : List RecvEvent)
    (hobj : request.isObj = true) (hid : request.pyGet "id" = none) :
    handle_mcp_request request .ok .ok events = .frames [] := by
  match request with
  | .obj fields => simp only [handle_mcp_request, hid]
  | .null | .bool _ | .num _ | .str _ | .arr _ => exact absurd hobj (by simp [Json.isObj])

theorem handle_notification_C3_witness :
    (Json.obj [("jsonrpc", .str "2.0"),
               ("method", .str "notifications/initialized"),
               ("id", .null)]).isObj = true
    ∧ (Json.obj [("jsonrpc", .str "2.0"),
                 ("method", .str "notifications/initialized"),
                 ("id", .null)]).pyGet "id" = none
    ∧ handle_mcp_request
        (Json.obj [("jsonrpc", .str "2.0"),
                   ("method", .str "notifications/initialized"), ("id", .null)])
        .ok .ok [RecvEvent.msg (Json.obj [("id", .num 7)])]
        = .frames [] :=
  ⟨rfl, rfl,
    handle_notification_C3
      (Json.obj [("jsonrpc", .str "2.0"),
                 ("method", .str "notifications/initialized"), ("id", .null)])
      [RecvEvent.msg (Json.obj [("id", .num 7)])] rfl rfl⟩

/-! ## The mcp-proxy HTTP endpoint (mcp_proxy.py lines 481 to 581) -/

/-- Whether the character list `p` starts the character list `s`. -/
def startsWithChars : List Char → List Char → Bool
  | [], _ => true
  | _ :: _, [] => false
  | p :: ps, c :: cs => p == c && startsWithChars ps cs

/-- Whether `pat` occurs as a contiguous run inside `s`. -/
def hasSubChars (pat : List Char) : List Char → Bool
  | [] => pat.isEmpty
  | c :: rest => startsWithChars pat (c :: rest) || hasSubChars pat rest

/-- Python substring membership `pat in s` on strings. -/
def strContainsSub (s pat : String) : Bool :=
  hasSubChars pat.toList s.toList

/-- Whether `j` is a JSON string or integer (the types admitted for a
JSON-RPC id by the pydantic field `Optional[Union[str, int]]`). -/
def Json.isStrOrInt : Json → Bool
  | .str _ => true
  | .num _ => true
  | _ => false

/-- Validation performed by constructing `JSONRPC20Request(**item)`
(mcp_proxy.py lines 38 to 43, applied at lines 510 to 518): the value must
be a dict; `method` must be present and a string; `jsonrpc`, when present,
a string; `params`, when present, a dict, a list or null; `id`, when
present, a string, an integer or null. -/
def validateJSONRPC20Request : Json → Bool
  | .obj fields =>
      (match (Json.obj fields).objGet "method" with
        | some (.str _) => true
        | _ => false)
      && (match (Json.obj fields).objGet "jsonrpc" with
        | some (.str _) => true
        | none => true
        | _ => false)
      && (match (Json.obj fields).objGet "params" with
        | some (.obj _) => true
        | some (.arr _) => true
        | some .null => true
        | none => true
        | _ => false)
      && (match (Json.obj fields).objGet "id" with
        | some v => v.isStrOrInt || v == .null
        | none => true)
  | _ => false

/-- The result of one call of the mcp-proxy endpoint as observed by the
HTTP client. -/
inductive HttpResult where
  /-- A JSONResponse with this status code and body. -/
  | jsonBody (code : Nat) (body : Json) : HttpResult
  /-- An HTTPException raised with this status code. -/
  | httpError (code : Nat) : HttpResult
  /-- A StreamingResponse carrying SSE events for the given outcome. -/
  | sse (outcome : HandleOutcome) : HttpResult
  /-- An exception escaped the handler: the framework's 500 response. -/
  | raised : HttpResult
  /-- The handler suspended without ever responding. -/
  | hangs : HttpResult
deriving DecidableEq, Repr

/-- The 400 envelope built at lines 520 to 530 on validation failure. -/
def invalidRequestEnvelope (msg : String) (idv : Json) : Json :=
  .obj [("jsonrpc", .str "2.0"),
        ("error", .obj [("code", .num (-32600)),
                        ("message", .str ("Invalid Request: " ++ msg))]),
        ("id", idv)]

/-- Shallow embedding of `mcp_proxy_endpoint` (mcp_proxy.py lines 481 to
581).  `containerExists` is the outcome of the container-manager lookup;
`body` is the decoded request body, `none` when `request.json()` raised;
`accept` is the Accept header (defaulted to application/json at line 533);
`validationMsg` is the str of the pydantic error when validation fails;
the remaining parameters feed `handle_mcp_request`. -/
def mcp_proxy_endpoint (containerExists : Bool) (body : Option Json)
    (accept : String) (validationMsg : String) (resolve : SessionResolve)
    (send : SendOutcome) (events : List RecvEvent) : HttpResult :=
  if !containerExists then .httpError 404
  else
    match body with
    | none =>
        .jsonBody 400 (.obj [("jsonrpc", .str "2.0"),
          ("error", .obj [("code", .num (-32700)),
                          ("message", .str "Parse error: Invalid JSON")]),
          ("id", .null)])
    | some j =>
        let valid := match j with
          | .arr items => items.all validateJSONRPC20Request
          | _ => validateJSONRPC20Request j
        if !valid then
          .jsonBody 400 (invalidRequestEnvelope validationMsg
            (if j.isObj then (j.objGet "id").getD .null else .null))
        else if strContainsSub accept "text/event-stream" then
          .sse (handle_mcp_request j resolve send events)
        else
          match handle_mcp_request j resolve send events with
          | .frames fs =>
              if j.isArr then .jsonBody 200 (.arr fs)
              else .jsonBody 200 (fs.headD .null)
          | .raises _ => .raised
          | .blocked _ => .hangs

/-- C1: the spec claims a JSON-RPC batch of N well-formed requests with
distinct non-null ids, under Accept application/json, yields a JSON array
of exactly N frames in request order.  The code instead passes the whole
batch list to `handle_mcp_request`, whose `request_data.get(...)` calls
raise AttributeError on a list; the exception escapes the generator, so the
endpoint produces the framework 500 (`raised`) rather than any JSON array.
Shown here on a well-formed batch of one request with id 1, for every
session environment. -/
theorem batch_endpoint_raised_C1 :
    ∀ (resolve : SessionResolve) (send : SendOutcome) (events : List RecvEvent),
      mcp_proxy_endpoint true
        (some (.arr [Json.obj [("jsonrpc", .str "2.0"),
                               ("method", .str "ping"), ("id", .num 1)]]))
        "application/json" "" resolve send events = .raised := by
  intro resolve send events
  cases resolve with
  | failed m => rfl
  | ok =>
      cases send with
      | failed m => rfl
      | ok => rfl

/-! ## MCPSession state machine (mcp_proxy.py lines 58 to 196)

Only the `state` field matters for claim C5; the effect of each public
method on it is read off the source: `start` (lines 102 to 135) performs no
state check and ends in active on success or error on failure; `stop`
(lines 137 to 163) returns immediately in closed or closing and otherwise
ends in closed; `send_message` (165 to 173) and `receive_message` (175 to
195) raise outside active and never write `self.state`. -/

/-- The MCPSessionState enum (mcp_proxy.py lines 58 to 64). -/
inductive MCPSessionState where
  | initializing : MCPSessionState
  | active : MCPSessionState
  | closing : MCPSessionState
  | closed : MCPSessionState
  | error : MCPSessionState
deriving DecidableEq, Repr

/-- One invocation of a public MCPSession method, with the environment
outcome folded in: `start` carries whether the subprocess spawn succeeded,
`recv` whether the queue produced a message in time. -/
inductive SessOp where
  | start (success : Bool) : SessOp
  | stop : SessOp
  | send : SessOp
  | recv : SessOp
deriving DecidableEq, Repr

/-- Effect of one public method on `self.state`, as written in the source.
`start` assigns active (line 128) or error (line 134) without inspecting
the current state; `stop` is a no-op in closed or closing (lines 139 to
140) and otherwise ends closed (line 162); `send_message` and
`receive_message` only read the state. -/
def sessStep (s : MCPSessionState) : SessOp → MCPSessionState
  | .start true => .active
  | .start false => .error
  | .stop => if s = .closed ∨ s = .closing then s else .closed
  | .send => s
  | .recv => s

/-- Run a sequence of public method invocations from a starting state. -/
def sessRun (s : MCPSessionState) (ops : List SessOp) : MCPSessionState :=
  ops.foldl sessStep s

/-- C5 counterexample: the claim says no sequence of the public operations
drives a closed session back to active, but `start` never checks the
current state, so calling it on a closed session with a successful spawn
ends in active. -/
theorem closed_to_active_counterexample_C5 :
    sessRun MCPSessionState.closed [SessOp.start true] = MCPSessionState.active := rfl

/-- C5 amended: restricted to `stop`, `send_message` and `receive_message`
the machine is monotonic and a closed session stays closed under any such
sequence; `start`, however, performs no state check, so it moves any state,
closed included, to active on spawn success (and to error on spawn
failure). -/
theorem closed_stays_closed_without_start_C5 :
    (∀ ops : List SessOp, (∀ op ∈ ops, ∀ b, op ≠ SessOp.start b) →
        sessRun MCPSessionState.closed ops = MCPSessionState.closed)
    ∧ (∀ s : MCPSessionState, sessStep s (SessOp.start true) = MCPSessionState.active)
    ∧ (∀ s : MCPSessionState, sessStep s (SessOp.start false) = MCPSessionState.error) := by
  refine ⟨?_, fun s => rfl, fun s => rfl⟩
  intro ops
  induction ops with
  | nil => intro _; rfl
  | cons op rest ih =>
      intro h
      have hop : ∀ b, op ≠ SessOp.start b := h op (List.mem_cons_self op rest)
      have hstep : sessStep MCPSessionState.closed op = MCPSessionState.closed := by
        cases op with
        | start b => exact absurd rfl (hop b)
        | stop => rfl
        | send => rfl
        | recv => rfl
      show sessRun (sessStep MCPSessionState.closed op) rest = MCPSessionState.closed
      rw [hstep]
      exact ih (fun x hx b => h x (List.mem_cons_of_mem op hx) b)

theorem closed_stays_closed_without_start_C5_witness :
    (∀ op ∈ [SessOp.stop, SessOp.send, SessOp.recv], ∀ b, op ≠ SessOp.start b)
    ∧ sessRun MCPSessionState.closed [SessOp.stop, SessOp.send, SessOp.recv]
        = MCPSessionState.closed :=
  ⟨by decide,
   closed_stays_closed_without_start_C5.1 [SessOp.stop, SessOp.send, SessOp.recv] (by decide)⟩

/-! ## MCPProxy session registry (mcp_proxy.py lines 265 to 386)

`self.sessions` is a Python dict; it becomes an association list with the
usual dict operations.  An `MCPSession` object is identified by a `tag`
(its Python object identity) so that replacing a registry entry can be told
apart from mutating the stored session. -/

/-- Dict lookup on an association list (first binding wins). -/
def alookup {α : Type} : List (String × α) → String → Option α
  | [], _ => none
  | p :: rest, k => if p.1 == k then some p.2 else alookup rest k

/-- Dict assignment d[k] = v: replace the binding of `k` in place, append
when absent. -/
def ainsert {α : Type} : List (String × α) → String → α → List (String × α)
  | [], k, v => [(k, v)]
  | p :: rest, k, v => if p.1 == k then (k, v) :: rest else p :: ainsert rest k v

theorem alookup_ainsert_self {α : Type} :
    ∀ (l : List (String × α)) (k : String) (v : α), alookup (ainsert l k v) k = some v
  | [], k, v => by simp [ainsert, alookup]
  | p :: rest, k, v => by
      by_cases h : p.1 = k
      · simp [ainsert, alookup, h]
      · simp only [ainsert, alookup, beq_iff_eq, h, if_false]
        exact alookup_ainsert_self rest k v

theorem alookup_mem {α : Type} :
    ∀ {l : List (String × α)} {k : String} {v : α}, alookup l k = some v → (k, v) ∈ l := by
  intro l
  induction l with
  | nil => intro k v h; exact absurd h (by simp [alookup])
  | cons p rest ih =>
      intro k v h
      by_cases hk : p.1 = k
      · simp only [alookup, beq_iff_eq, hk, if_true, Option.some.injEq] at h
        subst h
        rw [← hk]
        exact List.mem_cons_self p rest
      · simp only [alookup, beq_iff_eq, hk, if_false] at h
        exact List.mem_cons_of_mem p (ih h)

/-- With pairwise distinct keys, every element of `ainsert l k v` is either
the new binding or an old binding under a different key. -/
theorem mem_ainsert_of_nodup {α : Type} :
    ∀ {l : List (String × α)} {k : String} {v : α} {p : String × α},
      (l.map Prod.fst).Nodup → p ∈ ainsert l k v → p = (k, v) ∨ (p ∈ l ∧ p.1 ≠ k) := by
  intro l
  induction l with
  | nil =>
      intro k v p _ hp
      simp only [ainsert, List.mem_singleton] at hp
      exact Or.inl hp
  | cons q rest ih =>
      intro k v p hnd hp
      rw [List.map_cons] at hnd
      obtain ⟨hqk, hrest⟩ := List.nodup_cons.mp hnd
      by_cases hk : q.1 = k
      · simp only [ainsert, beq_iff_eq, hk, if_true] at hp
        rcases List.mem_cons.mp hp with h | h
        · exact Or.inl h
        · refine Or.inr ⟨List.mem_cons_of_mem q h, ?_⟩
          intro hpk
          exact hqk (by rw [hk, ← hpk]; exact List.mem_map_of_mem Prod.fst h)
      · simp only [ainsert, beq_iff_eq, hk, if_false] at hp
        rcases List.mem_cons.mp hp with h | h
        · exact Or.inr ⟨by rw [h]; exact List.mem_cons_self q rest, by rw [h]; exact hk⟩
        · rcases ih hrest h with h2 | ⟨h2, h3⟩
          · exact Or.inl h2
          · exact Or.inr ⟨List.mem_cons_of_mem q h2, h3⟩

/-- The fields of an MCPSession that the registry claims depend on.  `tag`
stands for the Python object identity; `state` is the session state after
`start`. -/
structure Sess where
  tag : Nat
  session_id : String
  container_id : String
  server_name : String
  command : String
  args : List String
  state : MCPSessionState
deriving DecidableEq, Repr

/-- What one `get_or_create_session` call returns and does: the returned
pair (session id, session), the registry afterwards, whether a new session
object was constructed and started, and the tags of every session on which
`stop` was invoked during the call (the source never calls `stop` here, so
this list is always empty: a replaced session keeps running). -/
structure GOCResult where
  sid : String
  sess : Sess
  sessions : List (String × Sess)
  created : Bool
  stopped : List Nat
deriving DecidableEq, Repr

/-- Shallow embedding of `MCPProxy.get_or_create_session` (mcp_proxy.py
lines 336 to 386).  `freshUuid` is the uuid4 drawn at line 359, `newTag`
the identity of the session object constructed at line 370, `startOk` the
outcome of `session.start()`.  Python truthiness of the session_id string
(empty string is falsy, both in the guard at line 352 and in the
`session_id or ...` expression at line 359) is modelled by the emptiness
tests. -/
def get_or_create_session (sessions : List (String × Sess))
    (container_id server_name : String) (session_id : Option String)
    (command : Option String) (args : Option (List String))
    (freshUuid : String) (newTag : Nat) (startOk : Bool) : Except String GOCResult :=
  let reuse : Option (String × Sess) :=
    match session_id with
    | none => none
    | some sid =>
        if sid = "" then none
        else
          match alookup sessions sid with
          | none => none
          | some s =>
              if s.container_id = container_id ∧ s.server_name = server_name
              then some (sid, s) else none
  match reuse with
  | some (sid, s) =>
      .ok { sid := sid, sess := s, sessions := sessions, created := false, stopped := [] }
  | none =>
      let newSid : String :=
        match session_id with
        | none => "mcp-" ++ freshUuid
        | some sid => if sid = "" then "mcp-" ++ freshUuid else sid
      let cmd := command.getD "uvx"
      let a := args.getD ["supergateway", "--stdio", "mcp-server-" ++ server_name]
      if startOk then
        let s : Sess := { tag := newTag, session_id := newSid,
                          container_id := container_id, server_name := server_name,
                          command := cmd, args := a, state := .active }
        .ok { sid := newSid, sess := s, sessions := ainsert sessions newSid s,
              created := true, stopped := [] }
      else
        .error ("Failed to start MCP session for server " ++ server_name)

/-- C4 counterexample: with a supplied session id that is absent from the
registry, the new session is registered under the supplied id (here
custom), not under a freshly minted mcp- id: the minted key mcp-deadbeef is
not in the resulting registry at all. -/
theorem supplied_absent_sid_counterexample_C4 :
    (get_or_create_session [] "c1" "echo" (some "custom") none none
        "deadbeef" 0 true).map GOCResult.sid = Except.ok "custom"
    ∧ ("custom" : String) ≠ "mcp-" ++ "deadbeef"
    ∧ (get_or_create_session [] "c1" "echo" (some "custom") none none
        "deadbeef" 0 true).map (fun r => alookup r.sessions ("mcp-" ++ "deadbeef"))
      = Except.ok none := by
  refine ⟨rfl, by decide, rfl⟩

/-- C4 amended: when no session id is supplied (or the supplied one is
empty, hence falsy), the new session is registered under mcp- followed by
the fresh uuid; when a non-empty session id is supplied but not present in
the registry, the new session is registered under the supplied id itself. -/
theorem session_id_minting_C4
    (sessions : List (String × Sess)) (cid sn fresh : String) (newTag : Nat)
    (cmd : Option String) (args : Option (List String)) (sid : String)
    (hsid : sid ≠ "") (habsent : alookup sessions sid = none) :
    (∀ r, get_or_create_session sessions cid sn none cmd args fresh newTag true = .ok r →
        r.sid = "mcp-" ++ fresh ∧ r.created = true ∧ alookup r.sessions r.sid = some r.sess)
    ∧ (∀ r, get_or_create_session sessions cid sn (some sid) cmd args fresh newTag true
          = .ok r →
        r.sid = sid ∧ r.created = true ∧ alookup r.sessions r.sid = some r.sess) := by
  constructor
  · intro r h
    simp only [get_or_create_session, if_true] at h
    injection h with h
    subst h
    exact ⟨rfl, rfl, alookup_ainsert_self sessions _ _⟩
  · intro r h
    simp only [get_or_create_session, hsid, habsent, if_false, if_true] at h
    injection h with h
    subst h
    exact ⟨rfl, rfl, alookup_ainsert_self sessions _ _⟩

theorem session_id_minting_C4_witness :
    (("custom" : String) ≠ "" ∧ alookup ([] : List (String × Sess)) "custom" = none)
    ∧ (GOCResult.mk "custom"
        (Sess.mk 3 "custom" "c1" "echo" "uvx"
          ["supergateway", "--stdio", "mcp-server-echo"] .active)
        [("custom", Sess.mk 3 "custom" "c1" "echo" "uvx"
          ["supergateway", "--stdio", "mcp-server-echo"] .active)]
        true []).sid = "custom"
      ∧ (GOCResult.mk "custom"
          (Sess.mk 3 "custom" "c1" "echo" "uvx"
            ["supergateway", "--stdio", "mcp-server-echo"] .active)
          [("custom", Sess.mk 3 "custom" "c1" "echo" "uvx"
            ["supergateway", "--stdio", "mcp-server-echo"] .active)]
          true []).created = true
      ∧ alookup (GOCResult.mk "custom"
          (Sess.mk 3 "custom" "c1" "echo" "uvx"
            ["supergateway", "--stdio", "mcp-server-echo"] .active)
          [("custom", Sess.mk 3 "custom" "c1" "echo" "uvx"
            ["supergateway", "--stdio", "mcp-server-echo"] .active)]
          true []).sessions
          (GOCResult.mk "custom"
            (Sess.mk 3 "custom" "c1" "echo" "uvx"
              ["supergateway", "--stdio", "mcp-server-echo"] .active)
            [("custom", Sess.mk 3 "custom" "c1" "echo" "uvx"
              ["supergateway", "--stdio", "mcp-server-echo"] .active)]
            true []).sid
        = some (GOCResult.mk "custom"
            (Sess.mk 3 "custom" "c1" "echo" "uvx"
              ["supergateway", "--stdio", "mcp-server-echo"] .active)
            [("custom", Sess.mk 3 "custom" "c1" "echo" "uvx"
              ["supergateway", "--stdio", "mcp-server-echo"] .active)]
            true []).sess :=
  ⟨⟨by decide, rfl⟩,
    (session_id_minting_C4 [] "c1" "echo" "u" 3 none none "custom"
      (by decide) rfl).2 _ rfl⟩

/-- C10: calling `get_or_create_session` with a session id that is in the
registry but whose stored session has a different container or server name
creates and starts a brand-new session, stores it under the same supplied
id (replacing the old registry entry), and never calls `stop` on the old
session, which is then no longer reachable through the registry (and hence
not through the idle reaper, which iterates the registry). -/
theorem replace_session_same_id_C10
    (sessions : List (String × Sess)) (cid sn fresh sid : String) (newTag : Nat)
    (cmd : Option String) (args : Option (List String)) (old : Sess)
    (hsid : sid ≠ "")
    (hold : alookup sessions sid = some old)
    (hmis : ¬(old.container_id = cid ∧ old.server_name = sn))
    (hnodup : (sessions.map Prod.fst).Nodup)
    (halias : ∀ p ∈ sessions, p.2.tag = old.tag → p.1 = sid)
    (hfresh : ∀ p ∈ sessions, p.2.tag ≠ newTag) :
    ∀ r, get_or_create_session sessions cid sn (some sid) cmd args fresh newTag true
        = .ok r →
      r.sid = sid
      ∧ r.created = true
      ∧ r.sess.tag = newTag
      ∧ r.sess.state = .active
      ∧ alookup r.sessions sid = some r.sess
      ∧ r.stopped = []
      ∧ ∀ p ∈ r.sessions, p.2.tag ≠ old.tag := by
  intro r h
  have hOldNew : old.tag ≠ newTag := hfresh (sid, old) (alookup_mem hold)
  simp only [get_or_create_session, hsid, hold, hmis, if_false, if_true] at h
  injection h with h
  subst h
  refine ⟨rfl, rfl, rfl, rfl, alookup_ainsert_self sessions _ _, rfl, ?_⟩
  intro p hp
  rcases mem_ainsert_of_nodup hnodup hp with h2 | ⟨h2, h3⟩
  · rw [h2]
    exact fun hc => hOldNew hc.symm
  · intro hc
    exact h3 (halias p h2 hc)

theorem replace_session_same_id_C10_witness :
    (("s1" : String) ≠ ""
      ∧ alookup [("s1", Sess.mk 1 "s1" "cOld" "echo" "uvx" [] .active)] "s1"
          = some (Sess.mk 1 "s1" "cOld" "echo" "uvx" [] .active)
      ∧ ¬((Sess.mk 1 "s1" "cOld" "echo" "uvx" [] .active).container_id = "cNew"
          ∧ (Sess.mk 1 "s1" "cOld" "echo" "uvx" [] .active).server_name = "echo"))
    ∧ ((GOCResult.mk "s1"
          (Sess.mk 2 "s1" "cNew" "echo" "uvx"
            ["supergateway", "--stdio", "mcp-server-echo"] .active)
          [("s1", Sess.mk 2 "s1" "cNew" "echo" "uvx"
            ["supergateway", "--stdio", "mcp-server-echo"] .active)]
          true []).sid = "s1"
        ∧ (GOCResult.mk "s1"
            (Sess.mk 2 "s1" "cNew" "echo" "uvx"
              ["supergateway", "--stdio", "mcp-server-echo"] .active)
            [("s1", Sess.mk 2 "s1" "cNew" "echo" "uvx"
              ["supergateway", "--stdio", "mcp-server-echo"] .active)]
            true []).created = true
        ∧ (GOCResult.mk "s1"
            (Sess.mk 2 "s1" "cNew" "echo" "uvx"
              ["supergateway", "--stdio", "mcp-server-echo"] .active)
            [("s1", Sess.mk 2 "s1" "cNew" "echo" "uvx"
              ["supergateway", "--stdio", "mcp-server-echo"] .active)]
            true []).sess.tag = 2
        ∧ (GOCResult.mk "s1"
            (Sess.mk 2 "s1" "cNew" "echo" "uvx"
              ["supergateway", "--stdio", "mcp-server-echo"] .active)
            [("s1", Sess.mk 2 "s1" "cNew" "echo" "uvx"
              ["supergateway", "--stdio", "mcp-server-echo"] .active)]
            true []).sess.state = .active
        ∧ alookup (GOCResult.mk "s1"
            (Sess.mk 2 "s1" "cNew" "echo" "uvx"
              ["supergateway", "--stdio", "mcp-server-echo"] .active)
            [("s1", Sess.mk 2 "s1" "cNew" "echo" "uvx"
              ["supergateway", "--stdio", "mcp-server-echo"] .active)]
            true []).sessions "s1"
          = some (GOCResult.mk "s1"
              (Sess.mk 2 "s1" "cNew" "echo" "uvx"
                ["supergateway", "--stdio", "mcp-server-echo"] .active)
              [("s1", Sess.mk 2 "s1" "cNew" "echo" "uvx"
                ["supergateway", "--stdio", "mcp-server-echo"] .active)]
              true []).sess
        ∧ (GOCResult.mk "s1"
            (Sess.mk 2 "s1" "cNew" "echo" "uvx"
              ["supergateway", "--stdio", "mcp-server-echo"] .active)
            [("s1", Sess.mk 2 "s1" "cNew" "echo" "uvx"
              ["supergateway", "--stdio", "mcp-server-echo"] .active)]
            true []).stopped = []
        ∧ ∀ p ∈ (GOCResult.mk "s1"
            (Sess.mk 2 "s1" "cNew" "echo" "uvx"
              ["supergateway", "--stdio", "mcp-server-echo"] .active)
            [("s1", Sess.mk 2 "s1" "cNew" "echo" "uvx"
              ["supergateway", "--stdio", "mcp-server-echo"] .active)]
            true []).sessions,
            p.2.tag ≠ (Sess.mk 1 "s1" "cOld" "echo" "uvx" [] .active).tag) :=
  ⟨⟨by decide, rfl, by decide⟩,
    replace_session_same_id_C10
      [("s1", Sess.mk 1 "s1" "cOld" "echo" "uvx" [] .active)]
      "cNew" "echo" "u" "s1" 2 none none
      (Sess.mk 1 "s1" "cOld" "echo" "uvx" [] .active)
      (by decide) rfl (by decide) (by decide)
      (by decide) (by decide) _ rfl⟩

/-! ## ContainerManager (`src/ipybox/server.py` lines 113 to 291)

Timestamps (datetime.now) become naturals supplied by the caller; the
ExecutionContainer handle becomes an opaque tag; the asyncio lock
disappears because each operation is modelled as one atomic state
transformer. -/

/-- The ContainerInfo pydantic model (server.py lines 61 to 68). -/
structure ContainerInfoRec where
  id : String
  tag : String
  executor_port : Nat
  resource_port : Nat
  created_at : Nat
  last_used_at : Nat
  status : String
deriving DecidableEq, Repr

/-- One entry of `self.executions` (server.py lines 256 to 264). -/
structure ExecRec where
  container_id : String
  status : String
  created_at : Nat
  completed_at : Option Nat
  error : Option String
deriving DecidableEq, Repr

/-- The mutable state of a ContainerManager (server.py lines 114 to 119):
`containers` maps container id to the runtime handle (an opaque tag),
`container_info` to its info record, `executions` execution id to its
record. -/
structure CMState where
  containers : List (String × Nat)
  container_info : List (String × ContainerInfoRec)
  executions : List (String × ExecRec)
deriving DecidableEq, Repr

/-- Drop every binding of key `k` (dict.pop with the key present at most
once). -/
def aerase {α : Type} (l : List (String × α)) (k : String) : List (String × α) :=
  l.filter (fun p => !(p.1 == k))

/-- How one `destroy_container` call ends (server.py lines 226 to 250):
a normal return of True or False, or an HTTPException with a status code. -/
inductive DestroyOutcome where
  | ret (b : Bool) : DestroyOutcome
  | httpExc (code : Nat) : DestroyOutcome
deriving DecidableEq, Repr

/-- Result of `destroy_container`: the outcome, the state afterwards, and
how many times `container.kill()` was invoked during the call. -/
structure DestroyResult where
  outcome : DestroyOutcome
  state : CMState
  kills : Nat
deriving DecidableEq, Repr

/-- Shallow embedding of `ContainerManager.destroy_container` (server.py
lines 226 to 250).  Under the lock, the container handle, its info record
and every execution record owned by the container are popped; only then,
when a handle had been present, `container.kill()` is issued — `killOk`
says whether it succeeded.  A failed kill raises HTTPException 500; an
absent handle returns False without killing anything. -/
def destroy_container (st : CMState) (cid : String) (killOk : Bool) : DestroyResult :=
  let popped : CMState :=
    { containers := aerase st.containers cid,
      container_info := aerase st.container_info cid,
      executions := st.executions.filter (fun p => !(p.2.container_id == cid)) }
  match alookup st.containers cid with
  | some _ =>
      if killOk then { outcome := .ret true, state := popped, kills := 1 }
      else { outcome := .httpExc 500, state := popped, kills := 1 }
  | none => { outcome := .ret false, state := popped, kills := 0 }

/-- Shallow embedding of the DELETE containers endpoint (server.py lines
409 to 416): it awaits `destroy_container` and returns a message;
HTTPExceptions pass through to the framework. -/
def destroy_endpoint (st : CMState) (cid : String) (killOk : Bool) :
    Except Nat String × CMState :=
  let r := destroy_container st cid killOk
  match r.outcome with
  | .ret _ => (.ok ("Container " ++ cid ++ " destroyed"), r.state)
  | .httpExc code => (.error code, r.state)

/-- Shallow embedding of `ContainerManager.update_container_usage`
(server.py lines 221 to 224): set last_used_at of the record to now when
the id is registered. -/
def update_container_usage (st : CMState) (cid : String) (now : Nat) : CMState :=
  if (alookup st.container_info cid).isSome then
    let touched := st.container_info.map
      (fun p => if p.1 = cid then (p.1, { p.2 with last_used_at := now }) else p)
    { st with container_info := touched }
  else st

/-- Shallow embedding of `ContainerManager.get_container` (server.py lines
194 to 207): look the handle up, raise HTTPException 404 when absent,
otherwise touch last_used_at via `update_container_usage` and return the
handle. -/
def get_container (st : CMState) (cid : String) (now : Nat) :
    Except Nat Nat × CMState :=
  match alookup st.containers cid with
  | none => (.error 404, st)
  | some h => (.ok h, update_container_usage st cid now)

/-- Shallow embedding of `ContainerManager.get_container_info` (server.py
lines 209 to 219): a pure lookup, HTTPException 404 when absent; the state
is untouched. -/
def get_container_info (st : CMState) (cid : String) :
    Except Nat ContainerInfoRec × CMState :=
  match alookup st.container_info cid with
  | none => (.error 404, st)
  | some info => (.ok info, st)

/-- Shallow embedding of `ContainerManager.list_containers` (server.py
lines 252 to 254): the list of info records; the state is untouched. -/
def list_containers (st : CMState) : List ContainerInfoRec × CMState :=
  (st.container_info.map Prod.snd, st)

/-- Shallow embedding of `ContainerManager.get_execution_status` (server.py
lines 274 to 291): lookup of the execution record, HTTPException 404 when
absent. -/
def get_execution_status (st : CMState) (eid : String) :
    Except Nat ExecRec × CMState :=
  match alookup st.executions eid with
  | none => (.error 404, st)
  | some rec => (.ok rec, st)

theorem alookup_aerase_self {α : Type} (l : List (String × α)) (k : String) :
    alookup (aerase l k) k = none := by
  induction l with
  | nil => rfl
  | cons p rest ih =>
      by_cases h : p.1 = k
      · simpa [aerase, alookup, h] using ih
      · simpa [aerase, alookup, h] using ih

/-- When every binding of key `k` satisfies the dropped predicate, the key
is gone after the filter. -/
theorem alookup_filter_none {α : Type} (q : String × α → Bool) :
    ∀ (l : List (String × α)) (k : String),
      (∀ p ∈ l, p.1 = k → q p = false) → alookup (l.filter q) k = none := by
  intro l
  induction l with
  | nil => intro k _; rfl
  | cons p rest ih =>
      intro k h
      by_cases hk : p.1 = k
      · have : q p = false := h p (List.mem_cons_self p rest) hk
        simp only [List.filter_cons, this, Bool.false_eq_true, if_false]
        exact ih k (fun x hx => h x (List.mem_cons_of_mem p hx))
      · rcases hq : q p with _ | _
        · simp only [List.filter_cons, hq, Bool.false_eq_true, if_false]
          exact ih k (fun x hx => h x (List.mem_cons_of_mem p hx))
        · simp only [List.filter_cons, hq, if_true, alookup, beq_iff_eq, hk, if_false]
          exact ih k (fun x hx => h x (List.mem_cons_of_mem p hx))

/-- C6 counterexample: after a successful destroy, a second destroy of the
same id returns False — outcome ret false, not an HTTPException 404
(NotFound) — and no second kill is issued; the DELETE endpoint consequently
answers the second call with the success message. -/
theorem destroy_second_no_notfound_counterexample_C6 :
    (destroy_container (destroy_container (CMState.mk [("c", 7)] [] [])
        "c" true).state "c" true).outcome = DestroyOutcome.ret false
    ∧ (destroy_container (destroy_container (CMState.mk [("c", 7)] [] [])
        "c" true).state "c" true).outcome ≠ DestroyOutcome.httpExc 404
    ∧ (destroy_container (CMState.mk [("c", 7)] [] []) "c" true).kills
        + (destroy_container (destroy_container (CMState.mk [("c", 7)] [] [])
            "c" true).state "c" true).kills = 1
    ∧ (destroy_endpoint (destroy_container (CMState.mk [("c", 7)] [] [])
        "c" true).state "c" true).1 = Except.ok "Container c destroyed" := by
  refine ⟨rfl, by decide, by decide, rfl⟩

/-- C6 amended: destroying a registered container twice issues the runtime
kill exactly once (on the first call); the second call does not fail with
NotFound but returns False, and through the DELETE endpoint it reports the
success message again. -/
theorem destroy_twice_C6 (st : CMState) (cid : String) (h : Nat) (killOk2 : Bool)
    (hreg : alookup st.containers cid = some h) :
    (destroy_container st cid true).outcome = .ret true
    ∧ (destroy_container st cid true).kills = 1
    ∧ (destroy_container (destroy_container st cid true).state cid killOk2).outcome
        = .ret false
    ∧ (destroy_container (destroy_container st cid true).state cid killOk2).kills = 0
    ∧ (destroy_endpoint (destroy_container st cid true).state cid killOk2).1
        = .ok ("Container " ++ cid ++ " destroyed") := by
  have h2 : alookup (aerase st.containers cid) cid = none :=
    alookup_aerase_self st.containers cid
  refine ⟨?_, ?_, ?_, ?_, ?_⟩ <;>
    simp only [destroy_container, destroy_endpoint, hreg, h2, if_true]

theorem destroy_twice_C6_witness :
    alookup (CMState.mk [("c", 7)] [] []).containers "c" = some 7
    ∧ ((destroy_container (CMState.mk [("c", 7)] [] []) "c" true).outcome = .ret true
      ∧ (destroy_container (CMState.mk [("c", 7)] [] []) "c" true).kills = 1
      ∧ (destroy_container (destroy_container (CMState.mk [("c", 7)] [] [])
          "c" true).state "c" true).outcome = .ret false
      ∧ (destroy_container (destroy_container (CMState.mk [("c", 7)] [] [])
          "c" true).state "c" true).kills = 0
      ∧ (destroy_endpoint (destroy_container (CMState.mk [("c", 7)] [] [])
          "c" true).state "c" true).1 = .ok ("Container " ++ "c" ++ " destroyed")) :=
  ⟨rfl, destroy_twice_C6 (CMState.mk [("c", 7)] [] []) "c" 7 true rfl⟩

/-- C7: when the runtime kill fails, `destroy_container` raises
HTTPException 500, but the container record and every execution record
owned by that container were already removed before the kill was attempted:
afterwards `get_container_info` answers 404, and so does
`get_execution_status` for every execution id whose bindings all belong to
the destroyed container. -/
theorem destroy_kill_failure_C7 (st : CMState) (cid : String) (h : Nat)
    (hreg : alookup st.containers cid = some h) :
    (destroy_container st cid false).outcome = .httpExc 500
    ∧ (get_container_info (destroy_container st cid false).state cid).1 = .error 404
    ∧ ∀ eid : String,
        (∀ p ∈ st.executions, p.1 = eid → p.2.container_id = cid) →
        (get_execution_status (destroy_container st cid false).state eid).1
          = .error 404 := by
  have hinfo : alookup (aerase st.container_info cid) cid = none :=
    alookup_aerase_self st.container_info cid
  refine ⟨?_, ?_, ?_⟩
  · simp only [destroy_container, hreg, Bool.false_eq_true, if_false]
  · simp only [destroy_container, hreg, Bool.false_eq_true, if_false,
      get_container_info, hinfo]
  · intro eid hall
    have hexec :
        alookup (st.executions.filter (fun p => !(p.2.container_id == cid))) eid
          = none := by
      refine alookup_filter_none _ st.executions eid ?_
      intro p hp hpk
      have := hall p hp hpk
      simp [this]
    simp only [destroy_container, hreg, Bool.false_eq_true, if_false,
      get_execution_status, hexec]

theorem destroy_kill_failure_C7_witness :
    alookup (CMState.mk [("c", 7)]
        [("c", ContainerInfoRec.mk "c" "img" 1 2 0 0 "running")]
        [("e1", ExecRec.mk "c" "running" 0 none none)]).containers "c" = some 7
    ∧ (destroy_container (CMState.mk [("c", 7)]
        [("c", ContainerInfoRec.mk "c" "img" 1 2 0 0 "running")]
        [("e1", ExecRec.mk "c" "running" 0 none none)]) "c" false).outcome
        = .httpExc 500
    ∧ (get_container_info (destroy_container (CMState.mk [("c", 7)]
        [("c", ContainerInfoRec.mk "c" "img" 1 2 0 0 "running")]
        [("e1", ExecRec.mk "c" "running" 0 none none)]) "c" false).state "c").1
        = .error 404
    ∧ (get_execution_status (destroy_container (CMState.mk [("c", 7)]
        [("c", ContainerInfoRec.mk "c" "img" 1 2 0 0 "running")]
        [("e1", ExecRec.mk "c" "running" 0 none none)]) "c" false).state "e1").1
        = .error 404 :=
  ⟨rfl,
    (destroy_kill_failure_C7 (CMState.mk [("c", 7)]
      [("c", ContainerInfoRec.mk "c" "img" 1 2 0 0 "running")]
      [("e1", ExecRec.mk "c" "running" 0 none none)]) "c" 7 rfl).1,
    (destroy_kill_failure_C7 (CMState.mk [("c", 7)]
      [("c", ContainerInfoRec.mk "c" "img" 1 2 0 0 "running")]
      [("e1", ExecRec.mk "c" "running" 0 none none)]) "c" 7 rfl).2.1,
    (destroy_kill_failure_C7 (CMState.mk [("c", 7)]
      [("c", ContainerInfoRec.mk "c" "img" 1 2 0 0 "running")]
      [("e1", ExecRec.mk "c" "running" 0 none none)]) "c" 7 rfl).2.2 "e1"
      (by decide)⟩


theorem alookup_cons {α : Type} (p : String × α) (rest : List (String × α)) (k : String) :
    alookup (p :: rest) k = if p.1 == k then some p.2 else alookup rest k := rfl

theorem alookup_map_update {α : Type} (g : α → α) :
    ∀ (l : List (String × α)) (k : String),
      alookup (l.map (fun p => if p.1 = k then (p.1, g p.2) else p)) k
        = (alookup l k).map g
  | [], k => rfl
  | p :: rest, k => by
      rw [List.map_cons]
      by_cases h : p.1 = k
      · rw [if_pos h, alookup_cons, alookup_cons,
          if_pos (show (((p.1, g p.2).1 == k) = true) by simpa using h),
          if_pos (show ((p.1 == k) = true) by simpa using h)]
        rfl
      · rw [if_neg h, alookup_cons, alookup_cons,
          if_neg (show ¬((p.1 == k) = true) by simpa using h),
          if_neg (show ¬((p.1 == k) = true) by simpa using h)]
        exact alookup_map_update g rest k

theorem alookup_map_update_ne {α : Type} (g : α → α) :
    ∀ (l : List (String × α)) (k k2 : String), k2 ≠ k →
      alookup (l.map (fun p => if p.1 = k then (p.1, g p.2) else p)) k2 = alookup l k2
  | [], _, _, _ => rfl
  | p :: rest, k, k2, hne => by
      rw [List.map_cons]
      by_cases h : p.1 = k
      · have hp : ¬(p.1 = k2) := fun hc => hne (hc ▸ h)
        rw [if_pos h, alookup_cons, alookup_cons,
          if_neg (show ¬(((p.1, g p.2).1 == k2) = true) by simpa using hp),
          if_neg (show ¬((p.1 == k2) = true) by simpa using hp)]
        exact alookup_map_update_ne g rest k k2 hne
      · rw [if_neg h, alookup_cons, alookup_cons]
        by_cases h2 : p.1 = k2
        · rw [if_pos (show ((p.1 == k2) = true) by simpa using h2),
            if_pos (show ((p.1 == k2) = true) by simpa using h2)]
        · rw [if_neg (show ¬((p.1 == k2) = true) by simpa using h2),
            if_neg (show ¬((p.1 == k2) = true) by simpa using h2)]
          exact alookup_map_update_ne g rest k k2 hne

/-- C8: for a registered container id, `get_container` returns the handle
and advances only the last_used_at field of that id's info record to the
supplied now; records under other ids are untouched, the containers and
executions tables are untouched, and `get_container_info` and
`list_containers` leave the whole state unchanged. -/
theorem get_touches_only_lastused_C8 (st : CMState) (cid : String) (now h : Nat)
    (hreg : alookup st.containers cid = some h) :
    (get_container st cid now).1 = .ok h
    ∧ alookup (get_container st cid now).2.container_info cid
        = (alookup st.container_info cid).map (fun i => { i with last_used_at := now })
    ∧ (∀ k, k ≠ cid → alookup (get_container st cid now).2.container_info k
        = alookup st.container_info k)
    ∧ (get_container st cid now).2.containers = st.containers
    ∧ (get_container st cid now).2.executions = st.executions
    ∧ (get_container_info st cid).2 = st
    ∧ (list_containers st).2 = st := by
  have hgc : get_container st cid now = (.ok h, update_container_usage st cid now) := by
    simp only [get_container, hreg]
  rw [hgc]
  refine ⟨rfl, ?_, ?_, ?_, ?_, ?_, rfl⟩
  · unfold update_container_usage
    by_cases hi : (alookup st.container_info cid).isSome
    · rw [if_pos hi]
      exact alookup_map_update (fun i => { i with last_used_at := now }) st.container_info cid
    · rw [if_neg hi]
      rw [Option.not_isSome_iff_eq_none] at hi
      rw [hi]
      rfl
  · intro k hk
    unfold update_container_usage
    by_cases hi : (alookup st.container_info cid).isSome
    · rw [if_pos hi]
      exact alookup_map_update_ne (fun i => { i with last_used_at := now }) st.container_info cid k hk
    · rw [if_neg hi]
  · unfold update_container_usage
    by_cases hi : (alookup st.container_info cid).isSome
    · rw [if_pos hi]
    · rw [if_neg hi]
  · unfold update_container_usage
    by_cases hi : (alookup st.container_info cid).isSome
    · rw [if_pos hi]
    · rw [if_neg hi]
  · unfold get_container_info
    cases alookup st.container_info cid <;> rfl

theorem get_touches_only_lastused_C8_witness :
    alookup (CMState.mk [("c", 7)]
        [("c", ContainerInfoRec.mk "c" "img" 1 2 5 5 "running")] []).containers "c"
      = some 7
    ∧ ((get_container (CMState.mk [("c", 7)]
          [("c", ContainerInfoRec.mk "c" "img" 1 2 5 5 "running")] []) "c" 42).1 = .ok 7
      ∧ alookup (get_container (CMState.mk [("c", 7)]
          [("c", ContainerInfoRec.mk "c" "img" 1 2 5 5 "running")] []) "c" 42).2.container_info "c"
          = (alookup (CMState.mk [("c", 7)]
              [("c", ContainerInfoRec.mk "c" "img" 1 2 5 5 "running")] []).container_info "c").map
            (fun i => { i with last_used_at := 42 })
      ∧ (∀ k, k ≠ "c" → alookup (get_container (CMState.mk [("c", 7)]
          [("c", ContainerInfoRec.mk "c" "img" 1 2 5 5 "running")] []) "c" 42).2.container_info k
          = alookup (CMState.mk [("c", 7)]
              [("c", ContainerInfoRec.mk "c" "img" 1 2 5 5 "running")] []).container_info k)
      ∧ (get_container (CMState.mk [("c", 7)]
          [("c", ContainerInfoRec.mk "c" "img" 1 2 5 5 "running")] []) "c" 42).2.containers
          = (CMState.mk [("c", 7)]
              [("c", ContainerInfoRec.mk "c" "img" 1 2 5 5 "running")] []).containers
      ∧ (get_container (CMState.mk [("c", 7)]
          [("c", ContainerInfoRec.mk "c" "img" 1 2 5 5 "running")] []) "c" 42).2.executions
          = (CMState.mk [("c", 7)]
              [("c", ContainerInfoRec.mk "c" "img" 1 2 5 5 "running")] []).executions
      ∧ (get_container_info (CMState.mk [("c", 7)]
          [("c", ContainerInfoRec.mk "c" "img" 1 2 5 5 "running")] []) "c").2
          = CMState.mk [("c", 7)]
              [("c", ContainerInfoRec.mk "c" "img" 1 2 5 5 "running")] []
      ∧ (list_containers (CMState.mk [("c", 7)]
          [("c", ContainerInfoRec.mk "c" "img" 1 2 5 5 "running")] [])).2
          = CMState.mk [("c", 7)]
              [("c", ContainerInfoRec.mk "c" "img" 1 2 5 5 "running")] []) :=
  ⟨rfl, get_touches_only_lastused_C8 (CMState.mk [("c", 7)]
      [("c", ContainerInfoRec.mk "c" "img" 1 2 5 5 "running")] []) "c" 42 7 rfl⟩

/-! ## MCP tools listing endpoint (server.py lines 575 to 593) -/

/-- A tool descriptor as specified for the resource client: name, free-text
description, input schema, optional return-value schema. -/
structure ToolDescriptor where
  name : String
  description : String
  inputSchema : Json
  returnSchema : Option Json
deriving DecidableEq, Repr

/-- JSON encoding of a tool descriptor. -/
def descriptorToJson (d : ToolDescriptor) : Json :=
  .obj ([("name", .str d.name), ("description", .str d.description),
         ("inputSchema", d.inputSchema)]
    ++ (match d.returnSchema with
        | some r => [("returnSchema", r)]
        | none => []))

/-- Modelled from the spec: `ResourceClient.get_mcp_sources` lives in
ipybox/resource/client.py, which is not among the sources here; section 4.2
of the spec gives its contract as a mapping tool_name to tool descriptor
for the given relpath and server_name.  The registry of generated servers
is keyed here by the string relpath/server_name. -/
def get_mcp_sources (registry : List (String × List (String × ToolDescriptor)))
    (relpath server_name : String) : List (String × ToolDescriptor) :=
  (alookup registry (relpath ++ "/" ++ server_name)).getD []

/-- Shallow embedding of the GET containers mcp endpoint
`get_mcp_server_tools` (server.py lines 575 to 593): it calls
`get_mcp_sources` and returns the dict with server_name and
list(sources.keys()) under the key tools. -/
def get_mcp_server_tools (registry : List (String × List (String × ToolDescriptor)))
    (relpath server_name : String) : Json :=
  Json.obj [("server_name", .str server_name),
            ("tools", .arr ((get_mcp_sources registry relpath server_name).map
              (fun p => Json.str p.1)))]

/-- C9: the claim (like the repository's own test_mcp_tools_detail.py,
which expects each entry of tools to be a dict with an inputSchema) says
the endpoint returns the tool descriptors produced by `get_mcp_sources`;
the code returns only list(sources.keys()), the bare tool names.  Evaluated
here on a server with one registered echo tool: the tools array holds the
string echo, which differs from the descriptor encoding. -/
theorem tools_endpoint_names_only_C9 :
    get_mcp_server_tools
        [("mcpgen/echo", [("echo", ToolDescriptor.mk "echo" "Echo a message"
            (Json.obj [("type", Json.str "object")]) none)])]
        "mcpgen" "echo"
      = Json.obj [("server_name", Json.str "echo"),
                  ("tools", Json.arr [Json.str "echo"])]
    ∧ Json.arr [Json.str "echo"]
        ≠ Json.arr [descriptorToJson (ToolDescriptor.mk "echo" "Echo a message"
            (Json.obj [("type", Json.str "object")]) none)] :=
  ⟨rfl, by decide⟩
